import Mathlib

/-
  Shallow embedding of the Gmail connection-lifecycle code of the
  email-adapt repository (file: the popup script holding the
  connect-gmail click handler, attemptHandshake, and the logout handler).

  The chrome.storage.local area is modelled by `Store` (the three persisted
  keys the lifecycle owns).  Every externally visible action of the handlers
  (storage writes/removals, network calls, inter-retry waits, provider token
  revocation) is recorded in an event trace `List Ev`, in program order.
  The outside world (chrome.identity, the userinfo endpoint, the backend's
  responses) is an explicit environment record, so the handlers become pure
  functions  initial store → environment → result × final store × trace.
-/

namespace EmailAdapt

/-- The three persisted chrome.storage.local keys owned by the lifecycle. -/
inductive Key
  | isConnected
  | userEmail
  | gmailToken
  deriving DecidableEq

/-- Externally visible actions of the handlers, in program order.
`write ks` is a `chrome.storage.local.set` touching exactly the keys `ks`;
`remove ks` is a `chrome.storage.local.remove` of the keys `ks`;
the `fetch…` constructors are the four network calls with their bodies;
`revokeCached` is `chrome.identity.removeCachedAuthToken`;
`wait` is the inter-retry `setTimeout` delay in milliseconds. -/
inductive Ev
  | write (ks : List Key)
  | remove (ks : List Key)
  | fetchUserinfo (bearer : String)
  | fetchStoreToken (email token : String)
  | fetchHandshake (email token : String)
  | fetchLogout (email : String)
  | revokeCached (token : Option String)
  | wait (ms : Nat)
  deriving DecidableEq

/-- The persisted session state: the values of the three keys
(`none` = key absent from chrome.storage.local). -/
structure Store where
  isConnected : Option Bool
  userEmail : Option String
  gmailToken : Option String
  deriving DecidableEq

/-- All keys absent: the state on first use. -/
def emptyStore : Store := { isConnected := none, userEmail := none, gmailToken := none }

/-- JavaScript truthiness of an optional string (`!userEmail` guard):
`undefined` and the empty string are falsy. -/
def jsTruthy : Option String → Bool
  | none => false
  | some s => s != ""

/-- The error message thrown by a failed handshake attempt:
`Attempt N: Failed to connect Gmail`. -/
def attemptMsg (attempt : Nat) : String := s!"Attempt {attempt}: Failed to connect Gmail"

/-- The error thrown after the last failed attempt:
`Failed after R attempts: <last error message>`. -/
def exhaustedMsg (retries : Nat) (last : String) : String :=
  s!"Failed after {retries} attempts: {last}"

/-- The error thrown when the storeToken backend call is not ok:
`Failed to connect Gmail: <detail>`. -/
def storeTokenFailMsg (d : String) : String := s!"Failed to connect Gmail: {d}"

/-- Result of the attemptHandshake JavaScript function.  `ack k` models a
normal return of the parsed response body on attempt `k`; `thrown` a thrown
error; `fellThrough` the loop never running (retries = 0: the async function
returns undefined). -/
inductive HsOutcome
  | ack (attempt : Nat)
  | thrown (msg : String)
  | fellThrough
  deriving DecidableEq

/-- Body of attemptHandshake's for-loop, iterating over the remaining
attempt numbers (the loop visits attempt = 1..retries, embedded below as the
explicit list `List.range' 1 retries`).  `hsOk a` says whether attempt `a`'s
try block succeeds (fetch resolves ok and the body parses); on failure the
loop rethrows if `attempt === retries` and otherwise waits `delay` before
the next iteration. -/
def hsRun (email token : String) (hsOk : Nat → Bool) (delay retries : Nat) :
    List Nat → HsOutcome × List Ev
  | [] => (HsOutcome.fellThrough, [])
  | attempt :: rest =>
    if hsOk attempt then
      (HsOutcome.ack attempt, [Ev.fetchHandshake email token])
    else if attempt = retries then
      (HsOutcome.thrown (exhaustedMsg retries (attemptMsg attempt)),
        [Ev.fetchHandshake email token])
    else
      let r := hsRun email token hsOk delay retries rest
      (r.1, Ev.fetchHandshake email token :: Ev.wait delay :: r.2)

/-- The attempt numbers the for-loop visits: 1, 2, ..., retries. -/
def attemptsList (retries : Nat) : List Nat := List.range' 1 retries

/-- The attemptHandshake function (source defaults: retries = 3,
delay = 1000; the handler calls it with the defaults). -/
def attemptHandshake (email token : String) (hsOk : Nat → Bool)
    (retries delay : Nat) : HsOutcome × List Ev :=
  hsRun email token hsOk delay retries (attemptsList retries)

/-- Environment of one connect-button click: what the outside world answers.
`authToken = none` models `chrome.runtime.lastError` in the getAuthToken
callback; `userinfo` is the userinfo fetch (error = the fetch/json threw);
`storeTokenOk` is `storeTokenResponseBackend.ok`; `storeTokenDetail` the
`detail` field of the error body (`none` = absent, giving `Unknown error`);
`hsOk a` is whether handshake attempt `a` succeeds. -/
structure ConnectEnv where
  authToken : Option String
  userinfo : Except String String
  storeTokenOk : Bool
  storeTokenDetail : Option String
  hsOk : Nat → Bool

/-- Outcome of the connect click handler, as surfaced to the user:
which catch branch (if any) ran.  `connected a` is the success path
(`a` = the handshake ack, `none` when the loop fell through). -/
inductive ConnectResult
  | authError
  | caughtError (msg : String)
  | handshakeFailed (msg : String)
  | connected (ackAttempt : Option Nat)
  deriving DecidableEq

/-- The connect-gmail click handler.  Faithful step order from the source:
(1) getAuthToken; on lastError report and stop.  (2) persist the token
under the `gmailToken` key.  (3) fetch userinfo; a throw lands in the outer
catch.  (4) POST /store-gmail-token with `{email, token}`; non-ok throws
`Failed to connect Gmail: detail` into the outer catch.  (5) on ok, set
`isConnected: true` and `userEmail` (before any handshake).  (6) run
attemptHandshake with retries 3, delay 1000; on success set
`isConnected`/`userEmail` again; on throw only the UI error text changes —
no storage key is rolled back. -/
def connectClick (st : Store) (env : ConnectEnv) : ConnectResult × Store × List Ev :=
  match env.authToken with
  | none => (ConnectResult.authError, st, [])
  | some token =>
    let st1 : Store := { st with gmailToken := some token }
    match env.userinfo with
    | Except.error msg =>
        (ConnectResult.caughtError msg, st1,
          [Ev.write [Key.gmailToken], Ev.fetchUserinfo token])
    | Except.ok email =>
        if env.storeTokenOk then
          let st2 : Store := { st1 with isConnected := some true, userEmail := some email }
          let hs := attemptHandshake email token env.hsOk 3 1000
          let pre : List Ev :=
            [Ev.write [Key.gmailToken], Ev.fetchUserinfo token,
             Ev.fetchStoreToken email token, Ev.write [Key.isConnected, Key.userEmail]]
          match hs.1 with
          | HsOutcome.ack a =>
              (ConnectResult.connected (some a), st2,
                pre ++ hs.2 ++ [Ev.write [Key.isConnected, Key.userEmail]])
          | HsOutcome.thrown msg =>
              (ConnectResult.handshakeFailed msg, st2, pre ++ hs.2)
          | HsOutcome.fellThrough =>
              (ConnectResult.connected none, st2,
                pre ++ hs.2 ++ [Ev.write [Key.isConnected, Key.userEmail]])
        else
          let d := env.storeTokenDetail.getD "Unknown error"
          (ConnectResult.caughtError (storeTokenFailMsg d), st1,
            [Ev.write [Key.gmailToken], Ev.fetchUserinfo token,
             Ev.fetchStoreToken email token])

/-- Environment of one logout-button click.  `revokeThrows` models
`chrome.identity.removeCachedAuthToken` throwing synchronously (so its
callback — UI reset and backend notification — never runs and the outer
catch logs); `logoutResp` is the /logout-gmail fetch: a thrown error or a
response with the given `ok` flag. -/
structure LogoutEnv where
  revokeThrows : Bool
  logoutResp : Except String Bool

/-- Outcome of the logout click handler: the guard's early return with no
session, or completion with the list of messages that were only logged. -/
inductive LogoutResult
  | invalidState
  | done (logged : List String)
  deriving DecidableEq

/-- The logout click handler.  Faithful step order from the source:
(1) read `userEmail`/`gmailToken`; if `!userEmail`, log and return without
touching anything.  (2) remove the three keys `isConnected`, `userEmail`,
`gmailToken` in one call.  (3) removeCachedAuthToken; in its callback
(4) POST /logout-gmail with `{email}`; any failure of (3) or (4) is only
logged — the removal of step (2) is never undone. -/
def logoutClick (st : Store) (env : LogoutEnv) : LogoutResult × Store × List Ev :=
  if jsTruthy st.userEmail then
    let email := st.userEmail.getD ""
    if env.revokeThrows then
      (LogoutResult.done ["Logout failed"], emptyStore,
        [Ev.remove [Key.isConnected, Key.userEmail, Key.gmailToken]])
    else
      match env.logoutResp with
      | Except.error msg =>
          (LogoutResult.done [s!"Failed to notify backend: {msg}"], emptyStore,
            [Ev.remove [Key.isConnected, Key.userEmail, Key.gmailToken],
             Ev.revokeCached st.gmailToken, Ev.fetchLogout email])
      | Except.ok true =>
          (LogoutResult.done [], emptyStore,
            [Ev.remove [Key.isConnected, Key.userEmail, Key.gmailToken],
             Ev.revokeCached st.gmailToken, Ev.fetchLogout email])
      | Except.ok false =>
          (LogoutResult.done ["Logout failed"], emptyStore,
            [Ev.remove [Key.isConnected, Key.userEmail, Key.gmailToken],
             Ev.revokeCached st.gmailToken, Ev.fetchLogout email])
  else (LogoutResult.invalidState, st, [])

/-- The connect button's UI state (its label and disabled flag). -/
structure ButtonUi where
  label : String
  disabled : Bool

/-- The connect button before any click. -/
def initialConnectUi : ButtonUi := { label := "Connect your Gmail", disabled := false }

/-- setButtonLoading from the source: loading disables the button (the
spinner markup of the loading label is elided), not-loading restores it. -/
def setButtonLoading (isLoading : Bool) (_ui : ButtonUi) : ButtonUi :=
  if isLoading then { label := "Connecting...", disabled := true }
  else { label := "Connect your Gmail", disabled := false }

/-- What a click on the connect button yields: a disabled button dispatches
no click event (standard DOM behaviour), so the handler does not run. -/
inductive ClickOutcome
  | notDispatched
  | result (r : ConnectResult)
  deriving DecidableEq

/-- Dispatch a click on the connect button: if the button is disabled the
handler never runs and nothing happens; otherwise the handler runs. -/
def dispatchConnect (disabled : Bool) (st : Store) (env : ConnectEnv) :
    ClickOutcome × Store × List Ev :=
  if disabled then (ClickOutcome.notDispatched, st, [])
  else
    let p := connectClick st env
    (ClickOutcome.result p.1, p.2.1, p.2.2)

/-- Two connect clicks with the second arriving before the first resolves.
The handler's first statement is setButtonLoading(true), run before its
first await, so the second click finds the button disabled and dispatches
nothing; the first click then completes alone.  Returns (first result,
second click's outcome, final store, combined trace). -/
def connectTwiceScenario (st : Store) (env : ConnectEnv) :
    ConnectResult × ClickOutcome × Store × List Ev :=
  let ui1 := setButtonLoading true initialConnectUi
  let second := dispatchConnect ui1.disabled st env
  let first := connectClick st env
  (first.1, second.1, first.2.1, first.2.2 ++ second.2.2)

/-- Is this event a handshake network call? -/
def isHsCall : Ev → Bool
  | Ev.fetchHandshake _ _ => true
  | _ => false

/-- Is this event a storeToken network call? -/
def isStoreTokenCall : Ev → Bool
  | Ev.fetchStoreToken _ _ => true
  | _ => false

/-- Is this event an inter-retry wait? -/
def isWaitEv : Ev → Bool
  | Ev.wait _ => true
  | _ => false

/-- Is this event a handshake call or a wait (in particular: not a storage
write or removal)? -/
def isHandshakeOrWait : Ev → Bool
  | Ev.fetchHandshake _ _ => true
  | Ev.wait _ => true
  | _ => false

/-- Number of handshake network calls in a trace. -/
def hsCallCount (evs : List Ev) : Nat := evs.countP isHsCall

/-- Number of storeToken network calls in a trace. -/
def storeTokenCallCount (evs : List Ev) : Nat := evs.countP isStoreTokenCall

/-- Number of inter-retry waits in a trace. -/
def waitCount (evs : List Ev) : Nat := evs.countP isWaitEv

/-- Concrete environment: auth and userinfo succeed, storeToken succeeds,
every handshake attempt fails. -/
def envHsAllFail : ConnectEnv :=
  { authToken := some "tok_abc", userinfo := Except.ok "user@example.com",
    storeTokenOk := true, storeTokenDetail := none, hsOk := fun _ => false }

/-- Concrete environment: auth and userinfo succeed, storeToken fails with
detail "bad token". -/
def envStoreFail : ConnectEnv :=
  { authToken := some "tok_abc", userinfo := Except.ok "user@example.com",
    storeTokenOk := false, storeTokenDetail := some "bad token", hsOk := fun _ => false }

/-- Concrete environment: everything succeeds, handshake on attempt 1. -/
def envHsOk1 : ConnectEnv :=
  { authToken := some "tok_abc", userinfo := Except.ok "user@example.com",
    storeTokenOk := true, storeTokenDetail := none, hsOk := fun n => n == 1 }

/-- Concrete connected store. -/
def connectedStore : Store :=
  { isConnected := some true, userEmail := some "user@example.com",
    gmailToken := some "tok_abc" }

/-- Concrete logout environment: revoke throws. -/
def lenvRevokeThrows : LogoutEnv := { revokeThrows := true, logoutResp := Except.ok true }

/-- Concrete logout environment: everything succeeds. -/
def lenvOk : LogoutEnv := { revokeThrows := false, logoutResp := Except.ok true }

theorem attemptsList_three : attemptsList 3 = [1, 2, 3] := rfl

theorem hsRun_mem (email token : String) (hsOk : Nat → Bool) (delay retries : Nat)
    (l : List Nat) (ev : Ev) (h : ev ∈ (hsRun email token hsOk delay retries l).2) :
    ev = Ev.fetchHandshake email token ∨ ev = Ev.wait delay := by
  induction l with
  | nil => simp [hsRun] at h
  | cons a rest ih =>
    simp only [hsRun] at h
    by_cases h1 : hsOk a
    · simp [h1] at h
      exact Or.inl h
    · by_cases h2 : a = retries
      · subst h2
        simp [h1] at h
        exact Or.inl h
      · simp [h1, h2] at h
        rcases h with h | h | h
        · exact Or.inl h
        · exact Or.inr h
        · exact ih h

theorem hsRun_all_frame (email token : String) (hsOk : Nat → Bool) (delay retries : Nat)
    (l : List Nat) :
    (hsRun email token hsOk delay retries l).2.all isHandshakeOrWait = true := by
  rw [List.all_eq_true]
  intro ev hev
  rcases hsRun_mem email token hsOk delay retries l ev hev with h | h <;>
    simp [h, isHandshakeOrWait]

theorem hs3_count_le (email token : String) (hsOk : Nat → Bool) (delay : Nat) :
    hsCallCount (attemptHandshake email token hsOk 3 delay).2 ≤ 3 := by
  cases h1 : hsOk 1 <;> cases h2 : hsOk 2 <;> cases h3 : hsOk 3 <;>
    simp [attemptHandshake, attemptsList_three, hsRun, h1, h2, h3, hsCallCount, isHsCall]

theorem hs3_first_success (email token : String) (hsOk : Nat → Bool) (delay : Nat)
    (k : Nat) (hk1 : 1 ≤ k) (hk3 : k ≤ 3) (hk : hsOk k = true)
    (hprev : ∀ j, 1 ≤ j → j < k → hsOk j = false) :
    (attemptHandshake email token hsOk 3 delay).1 = HsOutcome.ack k ∧
    hsCallCount (attemptHandshake email token hsOk 3 delay).2 = k := by
  interval_cases k
  · simp [attemptHandshake, attemptsList_three, hsRun, hk, hsCallCount, isHsCall]
  · have h1 := hprev 1 (by omega) (by omega)
    simp [attemptHandshake, attemptsList_three, hsRun, h1, hk, hsCallCount, isHsCall]
  · have h1 := hprev 1 (by omega) (by omega)
    have h2 := hprev 2 (by omega) (by omega)
    simp [attemptHandshake, attemptsList_three, hsRun, h1, h2, hk, hsCallCount, isHsCall]

theorem hs3_waits (email token : String) (hsOk : Nat → Bool) (delay : Nat)
    (d : Nat) (hd : Ev.wait d ∈ (attemptHandshake email token hsOk 3 delay).2) :
    d = delay := by
  rcases hsRun_mem email token hsOk delay 3 (attemptsList 3) (Ev.wait d) hd with h | h
  · exact Ev.noConfusion h
  · simpa using h

theorem hs3_wait_count (email token : String) (hsOk : Nat → Bool) (delay : Nat) :
    waitCount (attemptHandshake email token hsOk 3 delay).2 + 1 =
      hsCallCount (attemptHandshake email token hsOk 3 delay).2 := by
  cases h1 : hsOk 1 <;> cases h2 : hsOk 2 <;> cases h3 : hsOk 3 <;>
    simp [attemptHandshake, attemptsList_three, hsRun, h1, h2, h3, hsCallCount,
      waitCount, isHsCall, isWaitEv]

theorem hs3_exhausted (email token : String) (hsOk : Nat → Bool) (delay : Nat)
    (h1 : hsOk 1 = false) (h2 : hsOk 2 = false) (h3 : hsOk 3 = false) :
    (attemptHandshake email token hsOk 3 delay).1 =
      HsOutcome.thrown (exhaustedMsg 3 (attemptMsg 3)) ∧
    hsCallCount (attemptHandshake email token hsOk 3 delay).2 = 3 := by
  simp [attemptHandshake, attemptsList_three, hsRun, h1, h2, h3, hsCallCount, isHsCall]

theorem hsRun_no_write (email token : String) (hsOk : Nat → Bool) (delay retries : Nat)
    (l : List Nat) (ks : List Key) :
    Ev.write ks ∉ (hsRun email token hsOk delay retries l).2 := by
  intro h
  rcases hsRun_mem email token hsOk delay retries l _ h with h' | h' <;> exact Ev.noConfusion h'

theorem hsRun_no_remove (email token : String) (hsOk : Nat → Bool) (delay retries : Nat)
    (l : List Nat) (ks : List Key) :
    Ev.remove ks ∉ (hsRun email token hsOk delay retries l).2 := by
  intro h
  rcases hsRun_mem email token hsOk delay retries l _ h with h' | h' <;> exact Ev.noConfusion h'

theorem hsRun_no_storeToken (email token : String) (hsOk : Nat → Bool) (delay retries : Nat)
    (l : List Nat) (e t : String) :
    Ev.fetchStoreToken e t ∉ (hsRun email token hsOk delay retries l).2 := by
  intro h
  rcases hsRun_mem email token hsOk delay retries l _ h with h' | h' <;> exact Ev.noConfusion h'

theorem hsRun_handshake_pair (email token : String) (hsOk : Nat → Bool) (delay retries : Nat)
    (l : List Nat) (e t : String)
    (h : Ev.fetchHandshake e t ∈ (hsRun email token hsOk delay retries l).2) :
    e = email ∧ t = token := by
  rcases hsRun_mem email token hsOk delay retries l _ h with h' | h'
  · injection h' with h1 h2
    exact ⟨h1, h2⟩
  · exact Ev.noConfusion h'

theorem hsRun_storeToken_count_zero (email token : String) (hsOk : Nat → Bool)
    (delay retries : Nat) (l : List Nat) :
    (hsRun email token hsOk delay retries l).2.countP isStoreTokenCall = 0 := by
  rw [List.countP_eq_zero]
  intro ev hev
  rcases hsRun_mem email token hsOk delay retries l ev hev with h | h <;>
    simp [h, isStoreTokenCall]

theorem logout_trace_cases (st : Store) (env : LogoutEnv) :
    (logoutClick st env).2.2 = [] ∨
    (logoutClick st env).2.2 = [Ev.remove [Key.isConnected, Key.userEmail, Key.gmailToken]] ∨
    (logoutClick st env).2.2 =
      [Ev.remove [Key.isConnected, Key.userEmail, Key.gmailToken],
       Ev.revokeCached st.gmailToken, Ev.fetchLogout (st.userEmail.getD "")] := by
  cases hl : jsTruthy st.userEmail with
  | false => left; simp [logoutClick, hl]
  | true =>
    cases hr : env.revokeThrows with
    | true => right; left; simp [logoutClick, hl, hr]
    | false =>
      cases hresp : env.logoutResp with
      | error m => right; right; simp [logoutClick, hl, hr, hresp]
      | ok b => cases b <;> (right; right; simp [logoutClick, hl, hr, hresp])

/-- Claim C1, code-bug exhibit: run the connect handler from the empty
store with credential "tok_abc" and account "user@example.com", with
storeToken succeeding and every handshake attempt failing.  The handler
reports the handshake failure, yet the persisted store ends with
isConnected = true and gmailToken set, and the trace shows the
isConnected/userEmail write issued before the first handshake call, never
rolled back — the claim requires isConnected to stay false and the
credential and identity keys to stay unset whenever any step before
handshake success fails. -/
theorem connect_commits_before_handshake_success_bug :
    (connectClick emptyStore envHsAllFail).1 =
      ConnectResult.handshakeFailed (exhaustedMsg 3 (attemptMsg 3)) ∧
    (connectClick emptyStore envHsAllFail).2.1.isConnected = some true ∧
    (connectClick emptyStore envHsAllFail).2.1.userEmail = some "user@example.com" ∧
    (connectClick emptyStore envHsAllFail).2.1.gmailToken = some "tok_abc" ∧
    (connectClick emptyStore envHsAllFail).2.2 =
      [Ev.write [Key.gmailToken], Ev.fetchUserinfo "tok_abc",
       Ev.fetchStoreToken "user@example.com" "tok_abc",
       Ev.write [Key.isConnected, Key.userEmail],
       Ev.fetchHandshake "user@example.com" "tok_abc", Ev.wait 1000,
       Ev.fetchHandshake "user@example.com" "tok_abc", Ev.wait 1000,
       Ev.fetchHandshake "user@example.com" "tok_abc"] :=
  ⟨rfl, rfl, rfl, rfl, rfl⟩

/-- Claim C2: the retrying handshake sub-protocol with the source defaults
(3 attempts, one fixed delay) makes at most 3 handshake calls; it returns
the ack of the first successful attempt having made exactly that many
calls and no further ones; every inter-attempt wait equals the single
fixed delay, with exactly one wait between consecutive calls; and when all
3 attempts fail it throws the exhaustion error carrying the last attempt's
underlying error, having made exactly 3 calls. -/
theorem handshake_bounded_retry (email token : String) (hsOk : Nat → Bool) (delay : Nat) :
    hsCallCount (attemptHandshake email token hsOk 3 delay).2 ≤ 3 ∧
    (∀ k, 1 ≤ k → k ≤ 3 → hsOk k = true → (∀ j, 1 ≤ j → j < k → hsOk j = false) →
      (attemptHandshake email token hsOk 3 delay).1 = HsOutcome.ack k ∧
      hsCallCount (attemptHandshake email token hsOk 3 delay).2 = k) ∧
    (∀ d, Ev.wait d ∈ (attemptHandshake email token hsOk 3 delay).2 → d = delay) ∧
    waitCount (attemptHandshake email token hsOk 3 delay).2 + 1 =
      hsCallCount (attemptHandshake email token hsOk 3 delay).2 ∧
    (hsOk 1 = false → hsOk 2 = false → hsOk 3 = false →
      (attemptHandshake email token hsOk 3 delay).1 =
        HsOutcome.thrown (exhaustedMsg 3 (attemptMsg 3)) ∧
      hsCallCount (attemptHandshake email token hsOk 3 delay).2 = 3) :=
  ⟨hs3_count_le email token hsOk delay,
   fun k hk1 hk3 hk hprev => hs3_first_success email token hsOk delay k hk1 hk3 hk hprev,
   fun d hd => hs3_waits email token hsOk delay d hd,
   hs3_wait_count email token hsOk delay,
   fun h1 h2 h3 => hs3_exhausted email token hsOk delay h1 h2 h3⟩

theorem handshake_bounded_retry_witness :
    (attemptHandshake "user@example.com" "tok_abc" (fun _ => false) 3 1000).1 =
      HsOutcome.thrown (exhaustedMsg 3 (attemptMsg 3)) ∧
    hsCallCount (attemptHandshake "user@example.com" "tok_abc" (fun _ => false) 3 1000).2 = 3 :=
  (handshake_bounded_retry "user@example.com" "tok_abc" (fun _ => false) 1000).2.2.2.2 rfl rfl rfl

/-- Claim C3, counterexample: after the connect attempt in which storeToken
fails (detail "bad token"), the persisted gmailToken key still holds the
acquired credential "tok_abc" — against the claim that no Session Store
key holds the credential after the failed attempt. -/
theorem storeToken_failure_credential_persists_cex :
    (connectClick emptyStore envStoreFail).2.1.gmailToken = some "tok_abc" := rfl

/-- Claim C3 as amended: when storeToken fails, the connect attempt does
abort — zero handshake calls are made and the isConnected and userEmail
keys are untouched — but the credential acquired in step 1 is not
discarded from the Session Store: the gmailToken key, written at the start
of the attempt before storeToken was called, still holds it. -/
theorem storeToken_failure_aborts_but_keeps_credential (st : Store) (env : ConnectEnv)
    (tok email : String) (ha : env.authToken = some tok)
    (hu : env.userinfo = Except.ok email) (hs : env.storeTokenOk = false) :
    hsCallCount (connectClick st env).2.2 = 0 ∧
    (connectClick st env).2.1.isConnected = st.isConnected ∧
    (connectClick st env).2.1.userEmail = st.userEmail ∧
    (connectClick st env).2.1.gmailToken = some tok := by
  simp [connectClick, ha, hu, hs, hsCallCount, isHsCall]

theorem storeToken_failure_aborts_but_keeps_credential_witness :
    hsCallCount (connectClick emptyStore envStoreFail).2.2 = 0 :=
  (storeToken_failure_aborts_but_keeps_credential emptyStore envStoreFail "tok_abc"
    "user@example.com" rfl rfl rfl).1

/-- Claim C4: whenever an account identity is present, the logout
handler's first externally visible action is the single removal of the
three keys isConnected, userEmail and gmailToken; whatever the provider
revoke and the backend notification then do — throw, answer non-ok, or
succeed — the final persisted store is empty and the handler completes
with only logged messages, never a blocking error. -/
theorem disconnect_clears_state_first (st : Store) (env : LogoutEnv)
    (h : jsTruthy st.userEmail = true) :
    (logoutClick st env).2.1 = emptyStore ∧
    (logoutClick st env).2.2.head? =
      some (Ev.remove [Key.isConnected, Key.userEmail, Key.gmailToken]) ∧
    ∃ logged, (logoutClick st env).1 = LogoutResult.done logged := by
  cases hr : env.revokeThrows with
  | true => simp [logoutClick, h, hr]
  | false =>
    cases hl : env.logoutResp with
    | error msg => simp [logoutClick, h, hr, hl]
    | ok b => cases b <;> simp [logoutClick, h, hr, hl]

theorem disconnect_clears_state_first_witness :
    (logoutClick connectedStore lenvRevokeThrows).2.1 = emptyStore :=
  (disconnect_clears_state_first connectedStore lenvRevokeThrows rfl).1

/-- Claim C5, counterexample: with storeToken answering 400 and detail
"bad token", the final persisted state is not unchanged from the initial
empty state — the gmailToken key was written before the storeToken call
and survives the abort. -/
theorem storeToken_failure_state_changed_cex :
    (connectClick emptyStore envStoreFail).2.1 ≠ emptyStore := by decide

/-- Claim C5 as amended: every connect attempt makes at most one
storeToken call; when storeToken fails with a detail string, exactly one
storeToken call and zero handshake calls are made and the reported error
carries the backend's detail, but the final persisted state is not the
initial state: it differs by the gmailToken key now holding the acquired
credential. -/
theorem storeToken_single_attempt (st : Store) (env : ConnectEnv) :
    storeTokenCallCount (connectClick st env).2.2 ≤ 1 ∧
    (∀ tok email d, env.authToken = some tok → env.userinfo = Except.ok email →
      env.storeTokenOk = false → env.storeTokenDetail = some d →
      storeTokenCallCount (connectClick st env).2.2 = 1 ∧
      hsCallCount (connectClick st env).2.2 = 0 ∧
      (connectClick st env).1 = ConnectResult.caughtError (storeTokenFailMsg d) ∧
      (connectClick st env).2.1 = { st with gmailToken := some tok }) := by
  constructor
  · rcases env with ⟨a, ui, so, sd, ho⟩
    cases a with
    | none => simp [connectClick, storeTokenCallCount, isStoreTokenCall]
    | some tok =>
      cases ui with
      | error m => simp [connectClick, storeTokenCallCount, isStoreTokenCall]
      | ok email =>
        cases so with
        | false => simp [connectClick, storeTokenCallCount, isStoreTokenCall]
        | true =>
          cases hhs : (attemptHandshake email tok ho 3 1000).1 <;>
            simp only [connectClick, hhs] <;>
            simp [storeTokenCallCount, List.countP_append, attemptHandshake,
              hsRun_storeToken_count_zero, isStoreTokenCall]
  · intro tok email d ha hu hs hd
    simp [connectClick, ha, hu, hs, hd, storeTokenCallCount, hsCallCount,
      isStoreTokenCall, isHsCall]

theorem storeToken_single_attempt_witness :
    storeTokenCallCount (connectClick emptyStore envStoreFail).2.2 = 1 ∧
    hsCallCount (connectClick emptyStore envStoreFail).2.2 = 0 ∧
    (connectClick emptyStore envStoreFail).1 =
      ConnectResult.caughtError (storeTokenFailMsg "bad token") ∧
    (connectClick emptyStore envStoreFail).2.1 =
      { emptyStore with gmailToken := some "tok_abc" } :=
  (storeToken_single_attempt emptyStore envStoreFail).2 "tok_abc" "user@example.com"
    "bad token" rfl rfl rfl rfl

/-- Claim C6: a logout click with no userEmail key in the store takes the
invalid-state early return: the event trace is empty (zero network calls,
zero storage writes or removals) and the store is returned unchanged. -/
theorem disconnect_invalid_state_noop (st : Store) (env : LogoutEnv)
    (h : st.userEmail = none) :
    logoutClick st env = (LogoutResult.invalidState, st, ([] : List Ev)) := by
  simp [logoutClick, jsTruthy, h]

theorem disconnect_invalid_state_noop_witness :
    logoutClick emptyStore lenvOk = (LogoutResult.invalidState, emptyStore, ([] : List Ev)) :=
  disconnect_invalid_state_noop emptyStore lenvOk rfl

/-- Claim C7, counterexample: the connect handler issues a storage write
touching only the gmailToken key — a strict, non-empty subset of the three
persisted keys — against the claim that the three keys are only ever
written as a set. -/
theorem storage_write_strict_subset_cex :
    Ev.write [Key.gmailToken] ∈ (connectClick emptyStore envHsOk1).2.2 ∧
    [Key.gmailToken] ≠ [Key.isConnected, Key.userEmail, Key.gmailToken] := by
  decide

/-- Claim C7 as amended: the three keys are cleared only as a set — the
sole removal either handler performs removes exactly isConnected,
userEmail and gmailToken together — but they are not written as a set:
every write of the connect handler touches either exactly the single key
gmailToken or exactly the pair isConnected, userEmail, and the logout
handler never writes; no operation writes all three keys at once. -/
theorem storage_ops_fixed_shapes (st lst : Store) (cenv : ConnectEnv) (lenv : LogoutEnv) :
    (∀ ks, Ev.write ks ∈ (connectClick st cenv).2.2 →
      ks = [Key.gmailToken] ∨ ks = [Key.isConnected, Key.userEmail]) ∧
    (∀ ks, Ev.remove ks ∉ (connectClick st cenv).2.2) ∧
    (∀ ks, Ev.write ks ∉ (logoutClick lst lenv).2.2) ∧
    (∀ ks, Ev.remove ks ∈ (logoutClick lst lenv).2.2 →
      ks = [Key.isConnected, Key.userEmail, Key.gmailToken]) := by
  refine ⟨?_, ?_, ?_, ?_⟩
  · intro ks h
    rcases cenv with ⟨a, ui, so, sd, ho⟩
    cases a with
    | none => simp [connectClick] at h
    | some tok =>
      cases ui with
      | error m =>
        simp [connectClick] at h
        exact Or.inl h
      | ok email =>
        cases so with
        | false =>
          simp [connectClick] at h
          exact Or.inl h
        | true =>
          cases hhs : (attemptHandshake email tok ho 3 1000).1 with
          | ack n =>
            simp [connectClick, hhs] at h
            rcases h with h | h | h | h
            · exact Or.inl h
            · exact Or.inr h
            · exact absurd h (hsRun_no_write email tok ho 1000 3 (attemptsList 3) ks)
            · exact Or.inr h
          | thrown msg =>
            simp [connectClick, hhs] at h
            rcases h with h | h | h
            · exact Or.inl h
            · exact Or.inr h
            · exact absurd h (hsRun_no_write email tok ho 1000 3 (attemptsList 3) ks)
          | fellThrough =>
            simp [connectClick, hhs] at h
            rcases h with h | h | h | h
            · exact Or.inl h
            · exact Or.inr h
            · exact absurd h (hsRun_no_write email tok ho 1000 3 (attemptsList 3) ks)
            · exact Or.inr h
  · intro ks h
    rcases cenv with ⟨a, ui, so, sd, ho⟩
    cases a with
    | none => simp [connectClick] at h
    | some tok =>
      cases ui with
      | error m => simp [connectClick] at h
      | ok email =>
        cases so with
        | false => simp [connectClick] at h
        | true =>
          cases hhs : (attemptHandshake email tok ho 3 1000).1 <;>
            simp [connectClick, hhs] at h <;>
            exact absurd h (hsRun_no_remove email tok ho 1000 3 (attemptsList 3) ks)
  · intro ks h
    rcases logout_trace_cases lst lenv with h' | h' | h' <;> rw [h'] at h <;> simp at h
  · intro ks h
    rcases logout_trace_cases lst lenv with h' | h' | h' <;> rw [h'] at h <;> simp at h <;>
      exact h

theorem storage_ops_fixed_shapes_witness :
    [Key.gmailToken] = [Key.gmailToken] ∨
    [Key.gmailToken] = [Key.isConnected, Key.userEmail] :=
  (storage_ops_fixed_shapes emptyStore connectedStore envHsOk1 lenvOk).1
    [Key.gmailToken] (by decide)

/-- Claim C8, counterexample: issue connect twice, the second click before
the first resolves.  The second click's outcome is notDispatched — the
connect button was disabled by the first click's setButtonLoading(true),
so no handler runs and no error value of any kind (in particular no
OperationInProgress, which exists nowhere in the code) is surfaced to the
caller — and the scenario's event trace is exactly the single connect's
network sequence. -/
theorem second_connect_click_no_error_cex :
    (connectTwiceScenario emptyStore envHsOk1).2.1 = ClickOutcome.notDispatched ∧
    (connectTwiceScenario emptyStore envHsOk1).2.2.2 =
      (connectClick emptyStore envHsOk1).2.2 := by
  refine ⟨rfl, ?_⟩
  simp [connectTwiceScenario, dispatchConnect, setButtonLoading, initialConnectUi]

/-- Claim C8 as amended: while a connect is in progress the connect button
is disabled, so a second connect request dispatches no handler at all —
the second click yields no surfaced result (rather than an
OperationInProgress error, which the code does not define), the final
store is the one produced by the first connect alone, and exactly one
network sequence executes (the combined trace equals the first click's
trace). -/
theorem second_connect_click_ignored (st : Store) (env : ConnectEnv) :
    (connectTwiceScenario st env).2.1 = ClickOutcome.notDispatched ∧
    (connectTwiceScenario st env).2.2.1 = (connectClick st env).2.1 ∧
    (connectTwiceScenario st env).2.2.2 = (connectClick st env).2.2 ∧
    (connectTwiceScenario st env).1 = (connectClick st env).1 := by
  simp [connectTwiceScenario, dispatchConnect, setButtonLoading, initialConnectUi]

/-- Claim C9: every storeToken request and every handshake attempt of a
single connect attempt carries the identical email/token pair — the token
the environment handed out once at acquisition and the email the userinfo
endpoint resolved once from it. -/
theorem connect_single_identity_pair (st : Store) (env : ConnectEnv) (e t : String)
    (h : Ev.fetchStoreToken e t ∈ (connectClick st env).2.2 ∨
         Ev.fetchHandshake e t ∈ (connectClick st env).2.2) :
    env.authToken = some t ∧ env.userinfo = Except.ok e := by
  rcases env with ⟨a, ui, so, sd, ho⟩
  cases a with
  | none => simp [connectClick] at h
  | some tok =>
    cases ui with
    | error m => simp [connectClick] at h
    | ok email =>
      cases so with
      | false =>
        simp [connectClick] at h
        obtain ⟨h1, h2⟩ := h
        subst h1; subst h2
        exact ⟨rfl, rfl⟩
      | true =>
        cases hhs : (attemptHandshake email tok ho 3 1000).1 with
        | ack n =>
          simp [connectClick, hhs] at h
          rcases h with (⟨h1, h2⟩ | h) | h
          · subst h1; subst h2; exact ⟨rfl, rfl⟩
          · exact absurd h (hsRun_no_storeToken email tok ho 1000 3 (attemptsList 3) e t)
          · obtain ⟨h1, h2⟩ := hsRun_handshake_pair email tok ho 1000 3 (attemptsList 3) e t h
            subst h1; subst h2; exact ⟨rfl, rfl⟩
        | thrown msg =>
          simp [connectClick, hhs] at h
          rcases h with (⟨h1, h2⟩ | h) | h
          · subst h1; subst h2; exact ⟨rfl, rfl⟩
          · exact absurd h (hsRun_no_storeToken email tok ho 1000 3 (attemptsList 3) e t)
          · obtain ⟨h1, h2⟩ := hsRun_handshake_pair email tok ho 1000 3 (attemptsList 3) e t h
            subst h1; subst h2; exact ⟨rfl, rfl⟩
        | fellThrough =>
          simp [connectClick, hhs] at h
          rcases h with (⟨h1, h2⟩ | h) | h
          · subst h1; subst h2; exact ⟨rfl, rfl⟩
          · exact absurd h (hsRun_no_storeToken email tok ho 1000 3 (attemptsList 3) e t)
          · obtain ⟨h1, h2⟩ := hsRun_handshake_pair email tok ho 1000 3 (attemptsList 3) e t h
            subst h1; subst h2; exact ⟨rfl, rfl⟩

theorem connect_single_identity_pair_witness :
    envHsOk1.authToken = some "tok_abc" ∧
    envHsOk1.userinfo = Except.ok "user@example.com" :=
  connect_single_identity_pair emptyStore envHsOk1 "user@example.com" "tok_abc"
    (Or.inl (by decide))

/-- Claim C10: for any retries at least 1 and any delay, attemptHandshake
performs no Session Store operation at all: every event of its trace is a
handshake network call or an inter-attempt wait — in particular there is
no storage write or removal, so any store mutation on the connect path
happens in its caller. -/
theorem attemptHandshake_no_store_ops (email token : String) (hsOk : Nat → Bool)
    (retries delay : Nat) (_h : 1 ≤ retries) :
    (attemptHandshake email token hsOk retries delay).2.all isHandshakeOrWait = true :=
  hsRun_all_frame email token hsOk delay retries (attemptsList retries)

theorem attemptHandshake_no_store_ops_witness :
    (attemptHandshake "user@example.com" "tok_abc" (fun n => n == 2) 3 1000).2.all
      isHandshakeOrWait = true :=
  attemptHandshake_no_store_ops "user@example.com" "tok_abc" (fun n => n == 2) 3 1000
    (by decide)

end EmailAdapt
